import Mathlib

/-
Verification of the EMB-120 ZNTOL calculator (emb120_zntol_streamlit.py).

The engine is a single pure function calculate_zntol(isa_dev, msa, fuel_burn)
over a fixed data set: a low-altitude table, a high-altitude table, and a
table of per-ISA linear correction parameters.  Python floats are modelled as
exact rationals; np.polyfit(xs, ws, 2) is modelled as the exact least-squares
quadratic fit, computed from the normal equations by Cramer's rule; Python's
round() (banker's rounding) is modelled by pyRound.
-/

namespace EMB120

/-- Structural maximum takeoff weight (line 10 of the source). -/
def STRUCTURAL_MTOW : ℚ := 26433

/-- Minimum supported MSA (line 11 of the source). -/
def MIN_MSA : ℚ := 8000

/-- Association-list lookup keyed by a rational, mirroring Python dict lookup. -/
def lookupQ {α : Type} : List (ℚ × α) → ℚ → Option α
  | [], _ => none
  | (k, v) :: rest, x => if x = k then some v else lookupQ rest x

/-- Index of the first occurrence of a value in a list, mirroring
np.where(grid == v)[0][0] (with emptiness of the index set as none). -/
def findIdxQ : List ℚ → ℚ → Option ℕ
  | [], _ => none
  | x :: rest, v =>
      if x = v then some 0
      else match findIdxQ rest v with
           | some i => some (i + 1)
           | none => none

/-- Low-altitude data (lines 14-20): ISA deviation to list of (MSA, weight). -/
def low_data : List (ℚ × List (ℚ × ℚ)) :=
  [(0, [(23000, 19350), (22000, 20100), (20000, 21550), (18000, 23000), (16000, 24550)]),
   (5, [(22000, 19350), (20000, 20750), (18000, 22200), (16000, 23700), (14000, 25200), (12000, 26433)]),
   (10, [(20000, 20000), (18000, 21450), (16000, 22950), (14000, 24400), (12000, 25750), (10000, 26433)]),
   (15, [(20000, 19300), (18000, 20650), (16000, 22000), (14000, 23450), (12000, 24850), (10000, 26433)]),
   (20, [(18000, 19900), (16000, 21200), (14000, 22500), (12000, 23950), (10000, 25300), (8000, 26433)])]

/-- High-altitude ISA grid (line 23). -/
def high_isa_grid : List ℚ := [-20, -15, -10, -5, 0, 5, 10, 15, 20, 25, 30]

/-- High-altitude MSA grid (line 24). -/
def high_msa_grid : List ℚ := [19000, 20000, 21000, 22000, 23000, 24000, 25000, 26000]

/-- High-altitude takeoff-weight array (lines 25-37), one row per ISA grid value. -/
def high_tow : List (List ℚ) :=
  [[25000, 25000, 25000, 25000, 25000, 25000, 25000, 25000],
   [25000, 25000, 25000, 25000, 25000, 25000, 25000, 25000],
   [25000, 25000, 25000, 25000, 25000, 25000, 25000, 25000],
   [24600, 23100, 21700, 20300, 19000, 17700, 16400, 15100],
   [23600, 22200, 20800, 19400, 18000, 16700, 15400, 14100],
   [22600, 21100, 19700, 18300, 17000, 15700, 14300, 13000],
   [21600, 20000, 18600, 17200, 15900, 14500, 13100, 11700],
   [20600, 19000, 17500, 16000, 14700, 13300, 11900, 10400],
   [19400, 17900, 16300, 14900, 13200, 11800, 10400, 8800],
   [18200, 16600, 15000, 13500, 12000, 10400, 8700, 6900],
   [16400, 14800, 13200, 11600, 9900, 8100, 6400, 4600]]

/-- One entry of the correction-parameter table: a slope and an intercept. -/
structure AdjParam where
  slope : ℚ
  intercept : ℚ
deriving DecidableEq

/-- Selector for the string argument of get_adjust_param ('slope' or 'intercept'). -/
inductive Param where
  | slope
  | intercept
deriving DecidableEq

/-- Field access adjust_params[key][param]. -/
def paramVal (a : AdjParam) : Param → ℚ
  | .slope => a.slope
  | .intercept => a.intercept

/-- Adjustment parameters per ISA (lines 40-48); decimal float literals read as
exact decimals. -/
def adjust_params : List (ℚ × AdjParam) :=
  [(-10, ⟨-2741/10000, 4174⟩),
   (-5, ⟨-2633/10000, 4066⟩),
   (0, ⟨-3079/10000, 5653⟩),
   (5, ⟨-270/10000, 270⟩),
   (10, ⟨-40/10000, 40⟩),
   (15, ⟨80/10000, 123⟩),
   (20, ⟨494/10000, -306⟩)]

/-- The sorted key list of adjust_params (line 55). -/
def isas : List ℚ := [-10, -5, 0, 5, 10, 15, 20]

/-- Left insertion point of v into a sorted list, mirroring np.searchsorted
(line 59): the index of the first element that is at least v. -/
def searchsorted : List ℚ → ℚ → ℕ
  | [], _ => 0
  | x :: rest, v => if v ≤ x then 0 else searchsorted rest v + 1

/-- Table access adjust_params[t][param] (total: the code only indexes at keys
that are present, so the default is never read there). -/
def adjAt (t : ℚ) (param : Param) : ℚ :=
  paramVal ((lookupQ adjust_params t).getD ⟨0, 0⟩) param

/-- Interpolate or extrapolate slope/intercept for a given ISA
(get_adjust_param, lines 53-73). -/
def get_adjust_param (isa : ℚ) (param : Param) : ℚ :=
  if (lookupQ adjust_params isa).isSome then adjAt isa param
  else
    let idx := searchsorted isas isa
    if idx = 0 then
      adjAt (isas.getD 0 0) param +
        (adjAt (isas.getD 1 0) param - adjAt (isas.getD 0 0) param)
          / (isas.getD 1 0 - isas.getD 0 0) * (isa - isas.getD 0 0)
    else if idx = isas.length then
      adjAt (isas.getD (isas.length - 1) 0) param +
        (adjAt (isas.getD (isas.length - 1) 0) param - adjAt (isas.getD (isas.length - 2) 0) param)
          / (isas.getD (isas.length - 1) 0 - isas.getD (isas.length - 2) 0)
          * (isa - isas.getD (isas.length - 1) 0)
    else
      let frac := (isa - isas.getD (idx - 1) 0) / (isas.getD idx 0 - isas.getD (idx - 1) 0)
      adjAt (isas.getD (idx - 1) 0) param +
        frac * (adjAt (isas.getD idx 0) param - adjAt (isas.getD (idx - 1) 0) param)

/-- Insert one high-altitude sample into the points dict (lines 119-122):
averaging on an existing key, appending a new key otherwise. -/
def addPoint (pts : List (ℚ × ℚ)) (k v : ℚ) : List (ℚ × ℚ) :=
  if (lookupQ pts k).isSome then
    pts.map (fun p => if p.1 = k then (p.1, (p.2 + v) / 2) else p)
  else pts ++ [(k, v)]

/-- Collect all known (MSA, weight) points for a clamped ISA from the low and
high tables (lines 108-122). -/
def collect_points (isa_clamp : ℚ) : List (ℚ × ℚ) :=
  let pts := (lookupQ low_data isa_clamp).getD []
  match findIdxQ high_isa_grid isa_clamp with
  | some r => (high_msa_grid.zip (high_tow.getD r [])).foldl
      (fun acc p => addPoint acc p.1 p.2) pts
  | none => pts

/-- Insertion of a pair into a list sorted by key. -/
def insertByKey (x : ℚ × ℚ) : List (ℚ × ℚ) → List (ℚ × ℚ)
  | [] => [x]
  | y :: ys => if x.1 ≤ y.1 then x :: y :: ys else y :: insertByKey x ys

/-- Sort the point list by MSA key (line 128: msas = sorted(points.keys()),
keeping each weight with its key). -/
def sortByKey (l : List (ℚ × ℚ)) : List (ℚ × ℚ) := l.foldr insertByKey []

/-- Sum of f over the point list. -/
def psum (pts : List (ℚ × ℚ)) (f : ℚ × ℚ → ℚ) : ℚ := (pts.map f).sum

/-- Determinant of a 3 by 3 matrix given row-wise. -/
def det3 (a b c d e f g h i : ℚ) : ℚ :=
  a * (e * i - f * h) - b * (d * i - f * g) + c * (d * h - e * g)

/-- Exact least-squares quadratic fit (np.polyfit(msas, weights, 2), line 130):
the coefficient triple (a, b, c) of a*x^2 + b*x + c minimising the sum of
squared residuals, obtained from the normal equations by Cramer's rule. -/
def polyfit2 (pts : List (ℚ × ℚ)) : ℚ × ℚ × ℚ :=
  let s0 := psum pts (fun _ => 1)
  let s1 := psum pts (fun p => p.1)
  let s2 := psum pts (fun p => p.1 ^ 2)
  let s3 := psum pts (fun p => p.1 ^ 3)
  let s4 := psum pts (fun p => p.1 ^ 4)
  let t0 := psum pts (fun p => p.2)
  let t1 := psum pts (fun p => p.1 * p.2)
  let t2 := psum pts (fun p => p.1 ^ 2 * p.2)
  let d := det3 s4 s3 s2 s3 s2 s1 s2 s1 s0
  (det3 t2 s3 s2 t1 s2 s1 t0 s1 s0 / d,
   det3 s4 t2 s2 s3 t1 s1 s2 t0 s0 / d,
   det3 s4 s3 t2 s3 s2 t1 s2 s1 t0 / d)

/-- Evaluation of the fitted quadratic (np.poly1d, lines 131-134). -/
def poly_eval (abc : ℚ × ℚ × ℚ) (x : ℚ) : ℚ :=
  abc.1 * x ^ 2 + abc.2.1 * x + abc.2.2

/-- Python's round(): round half to even (banker's rounding). -/
def pyRound (q : ℚ) : ℤ :=
  if q - ⌊q⌋ < 1 / 2 then ⌊q⌋
  else if 1 / 2 < q - ⌊q⌋ then ⌊q⌋ + 1
  else if ⌊q⌋ % 2 = 0 then ⌊q⌋ else ⌊q⌋ + 1

/-- The source tag of a computed weight (the 'source' string of the result):
cold cap, plain curve fit, or curve fit with a clamped ISA recorded. -/
inductive Source where
  | coldCap
  | curveFit
  | curveFitClamped (isa_clamp : ℚ)
deriving DecidableEq

/-- The populated fields of a successful result dict (lines 149-156). -/
structure Ok where
  w_obstacle_max : ℤ
  zntol : ℤ
  capped : Bool
  source : Source
  effective_msa : ℤ
deriving DecidableEq

/-- The error kinds the function can return (lines 80-85 and 125). -/
inductive ZErr where
  | isaRange
  | msaRange
  | negFuel
  | noData
deriving DecidableEq

/-- Result of calculate_zntol: either an error dict (only an error message,
no weight fields) or the populated result dict. -/
inductive ZRes where
  | err (e : ZErr)
  | ok (r : Ok)
deriving DecidableEq

/-- Effective MSA after the clearance adjustment (lines 88-91). -/
def effective_msa_of (msa : ℚ) : ℚ :=
  if 6000 < msa then msa - 1000 else msa

/-- The ISA clamp applied on the warm path, np.clip(isa_dev, 0, 20) (line 104). -/
def isa_clamp_of (isa_dev : ℚ) : ℚ := min (max isa_dev 0) 20

/-- The curve-fit weight for a clamped ISA at an effective MSA: fitted
quadratic through the collected points plus the linear test-data correction
(lines 127-140). -/
def rowWeight (isa_clamp e : ℚ) : ℚ :=
  poly_eval (polyfit2 (sortByKey (collect_points isa_clamp))) e +
    (get_adjust_param isa_clamp .slope * e + get_adjust_param isa_clamp .intercept)

/-- The pre-clamp obstacle weight and source for validated inputs
(lines 93-141): cold cap for ISA at most -5, otherwise the curve fit on the
clamped ISA; none when no points exist for the clamped ISA. -/
def w_obstacle_raw (isa_dev msa : ℚ) : Option (ℚ × Source) :=
  if isa_dev ≤ -5 then
    some (25000 +
      (get_adjust_param (-5) .slope * effective_msa_of msa +
        get_adjust_param (-5) .intercept), .coldCap)
  else
    let isa_clamp := isa_clamp_of isa_dev
    if collect_points isa_clamp = [] then none
    else
      some (rowWeight isa_clamp (effective_msa_of msa),
        if isa_dev = isa_clamp then .curveFit else .curveFitClamped isa_clamp)

/-- The obstacle weight after the final cap to
[4600, STRUCTURAL_MTOW] (line 144), still before rounding. -/
def w_obstacle_clamped (isa_dev msa : ℚ) : Option ℚ :=
  (w_obstacle_raw isa_dev msa).map (fun p => min (max p.1 4600) STRUCTURAL_MTOW)

/-- The full calculation (calculate_zntol, lines 79-156): validation, the
effective-MSA transform, the cold-cap or curve-fit weight, the final caps and
the assembly of the result dict.  Total, hence never raises. -/
def calculate_zntol (isa_dev msa fuel_burn : ℚ) : ZRes :=
  if isa_dev < -20 ∨ 30 < isa_dev then .err .isaRange
  else if msa < MIN_MSA ∨ 26000 < msa then .err .msaRange
  else if fuel_burn < 0 then .err .negFuel
  else
    match w_obstacle_raw isa_dev msa with
    | none => .err .noData
    | some (w0, source) =>
        let w := min (max w0 4600) STRUCTURAL_MTOW
        let zntol_uncapped := w + fuel_burn
        let zntol := min zntol_uncapped STRUCTURAL_MTOW
        .ok ⟨pyRound w, pyRound zntol, decide (STRUCTURAL_MTOW < zntol_uncapped),
          source, pyRound (effective_msa_of msa)⟩

/-- Line through two points, evaluated at x: the interpolation/extrapolation
the spec describes for the correction curve. -/
def lineThrough (x1 y1 x2 y2 x : ℚ) : ℚ := y1 + (x - x1) / (x2 - x1) * (y2 - y1)

/-- Consecutive pairs of the sorted correction-curve keys. -/
def isaPairs : List (ℚ × ℚ) := [(-10, -5), (-5, 0), (0, 5), (5, 10), (10, 15), (15, 20)]

/-- Membership of an effective altitude in the sampled altitude span of the
row the query resolves to: trivially satisfied on the cold path, and on the
warm path the effective altitude must lie between two sampled MSA keys of the
clamped row's collected points. -/
def inTableRegion (isa_dev a : ℚ) : Prop :=
  -5 < isa_dev →
    ∃ p ∈ collect_points (isa_clamp_of isa_dev),
      ∃ q ∈ collect_points (isa_clamp_of isa_dev),
        p.1 ≤ effective_msa_of a ∧ effective_msa_of a ≤ q.1

/-! Helper lemmas. -/

lemma le_pyRound {n : ℤ} {q : ℚ} (h : (n : ℚ) ≤ q) : n ≤ pyRound q := by
  have hn : n ≤ ⌊q⌋ := Int.le_floor.2 h
  unfold pyRound
  split_ifs <;> omega

lemma pyRound_le {n : ℤ} {q : ℚ} (h : q ≤ (n : ℚ)) : pyRound q ≤ n := by
  have hfl : ⌊q⌋ ≤ n := by
    have h2 : ⌊q⌋ ≤ ⌊(n : ℚ)⌋ := Int.floor_le_floor h
    simpa using h2
  unfold pyRound
  split_ifs with h1 h2 h3
  · exact hfl
  all_goals {
    have hq : (⌊q⌋ : ℚ) < q := by
      rcases lt_or_eq_of_le (Int.floor_le q) with hlt | heqq
      · exact hlt
      · exfalso
        apply h1
        rw [← heqq]
        norm_num
    have hn : ⌊q⌋ < n := by
      exact_mod_cast lt_of_lt_of_le hq h
    omega }

lemma pyRound_mono {q r : ℚ} (h : q ≤ r) : pyRound q ≤ pyRound r := by
  have hf : ⌊q⌋ ≤ ⌊r⌋ := Int.floor_le_floor h
  rcases lt_or_eq_of_le hf with hlt | heq
  · unfold pyRound
    split_ifs <;> omega
  · have hfr : q - ⌊q⌋ ≤ r - ⌊r⌋ := by
      rw [heq]
      linarith
    unfold pyRound
    split_ifs <;> first | omega | linarith

lemma pyRound_int (n : ℤ) : pyRound (n : ℚ) = n := by
  unfold pyRound
  rw [Int.floor_intCast]
  have hc : ((n : ℚ) - (n : ℚ)) < 1 / 2 := by norm_num
  rw [if_pos hc]

lemma lookupQ_eq_none {α : Type} (l : List (ℚ × α)) (x : ℚ)
    (h : ∀ p ∈ l, x ≠ p.1) : lookupQ l x = none := by
  induction l with
  | nil => rfl
  | cons a as ih =>
    obtain ⟨k, v⟩ := a
    rw [lookupQ, if_neg (h (k, v) (List.mem_cons_self _ _))]
    exact ih fun p hp => h p (List.mem_cons_of_mem _ hp)

lemma findIdxQ_eq_none (l : List ℚ) (x : ℚ)
    (h : ∀ y ∈ l, y ≠ x) : findIdxQ l x = none := by
  induction l with
  | nil => rfl
  | cons a as ih =>
    rw [findIdxQ, if_neg (h a (List.mem_cons_self _ _)),
      ih fun y hy => h y (List.mem_cons_of_mem _ hy)]

lemma eff_sub (m : ℚ) (h : 6000 < m) : effective_msa_of m = m - 1000 := by
  rw [effective_msa_of, if_pos h]

lemma clamp_mono {x y : ℚ} (h : x ≤ y) :
    min (max x 4600) STRUCTURAL_MTOW ≤ min (max y 4600) STRUCTURAL_MTOW :=
  min_le_min (max_le_max h le_rfl) le_rfl

lemma quad_total_mono (a b c s i L e1 e2 : ℚ) (ha : a < 0)
    (hd : 2 * a * L + b + s ≤ 0) (h1 : L ≤ e1) (h12 : e1 ≤ e2) :
    (a * e2 ^ 2 + b * e2 + c) + (s * e2 + i) ≤ (a * e1 ^ 2 + b * e1 + c) + (s * e1 + i) := by
  have hsum : 2 * L ≤ e1 + e2 := by linarith
  have h2 : a * (e1 + e2) ≤ a * (2 * L) := mul_le_mul_of_nonpos_left hsum (le_of_lt ha)
  have h3 : a * (e1 + e2) + b + s ≤ 0 := by
    have : a * (2 * L) = 2 * a * L := by ring
    linarith [this ▸ h2]
  have h4 : 0 ≤ (e2 - e1) * (-(a * (e1 + e2) + b + s)) :=
    mul_nonneg (by linarith) (by linarith)
  nlinarith [h4]

lemma pyRound_eval {q : ℚ} {n : ℤ} (h1 : (n : ℚ) ≤ q) (h2 : q < (n : ℚ) + 1 / 2) :
    pyRound q = n := by
  have hfl : ⌊q⌋ = n := Int.floor_eq_iff.2 ⟨h1, by linarith⟩
  unfold pyRound
  rw [hfl, if_pos (by linarith : q - (n : ℚ) < 1 / 2)]

lemma pyRound_eval_up {q : ℚ} {n : ℤ} (h1 : (n : ℚ) + 1 / 2 < q) (h2 : q < (n : ℚ) + 1) :
    pyRound q = n + 1 := by
  have hfl : ⌊q⌋ = n := Int.floor_eq_iff.2 ⟨by linarith, h2⟩
  unfold pyRound
  rw [hfl, if_neg (by linarith : ¬ q - (n : ℚ) < 1 / 2),
    if_pos (by linarith : (1 : ℚ) / 2 < q - (n : ℚ))]

lemma clamp_of_le {w : ℚ} (h1 : 4600 ≤ w) (h2 : w ≤ STRUCTURAL_MTOW) :
    min (max w 4600) STRUCTURAL_MTOW = w := by
  rw [max_eq_left h1, min_eq_left h2]

set_option maxRecDepth 4000

lemma hcl0 : isa_clamp_of 0 = 0 := by norm_num [isa_clamp_of, max_def, min_def]

lemma hcl5 : isa_clamp_of 5 = 5 := by norm_num [isa_clamp_of, max_def, min_def]

lemma hcl10 : isa_clamp_of 10 = 10 := by norm_num [isa_clamp_of, max_def, min_def]

lemma hcl15 : isa_clamp_of 15 = 15 := by norm_num [isa_clamp_of, max_def, min_def]

lemma hcl20 : isa_clamp_of 20 = 20 := by norm_num [isa_clamp_of, max_def, min_def]

lemma hcl25 : isa_clamp_of 25 = 20 := by norm_num [isa_clamp_of, max_def, min_def]

lemma cp0 : collect_points 0 =
    [(23000, 18675), (22000, 19750), (20000, 21875), (18000, 23000), (16000, 24550),
     (19000, 23600), (21000, 20800), (24000, 16700), (25000, 15400), (26000, 14100)] := by
  norm_num [collect_points, lookupQ, findIdxQ, low_data, high_isa_grid, high_msa_grid,
    high_tow, addPoint, List.zip, List.zipWith, List.foldl]

lemma cp5 : collect_points 5 =
    [(22000, 18825), (20000, 20925), (18000, 22200), (16000, 23700), (14000, 25200),
     (12000, 26433), (19000, 22600), (21000, 19700), (23000, 17000), (24000, 15700),
     (25000, 14300), (26000, 13000)] := by
  norm_num [collect_points, lookupQ, findIdxQ, low_data, high_isa_grid, high_msa_grid,
    high_tow, addPoint, List.zip, List.zipWith, List.foldl]

lemma cp10 : collect_points 10 =
    [(20000, 20000), (18000, 21450), (16000, 22950), (14000, 24400), (12000, 25750),
     (10000, 26433), (19000, 21600), (21000, 18600), (22000, 17200), (23000, 15900),
     (24000, 14500), (25000, 13100), (26000, 11700)] := by
  norm_num [collect_points, lookupQ, findIdxQ, low_data, high_isa_grid, high_msa_grid,
    high_tow, addPoint, List.zip, List.zipWith, List.foldl]

lemma cp15 : collect_points 15 =
    [(20000, 19150), (18000, 20650), (16000, 22000), (14000, 23450), (12000, 24850),
     (10000, 26433), (19000, 20600), (21000, 17500), (22000, 16000), (23000, 14700),
     (24000, 13300), (25000, 11900), (26000, 10400)] := by
  norm_num [collect_points, lookupQ, findIdxQ, low_data, high_isa_grid, high_msa_grid,
    high_tow, addPoint, List.zip, List.zipWith, List.foldl]

lemma cp20 : collect_points 20 =
    [(18000, 19900), (16000, 21200), (14000, 22500), (12000, 23950), (10000, 25300),
     (8000, 26433), (19000, 19400), (20000, 17900), (21000, 16300), (22000, 14900),
     (23000, 13200), (24000, 11800), (25000, 10400), (26000, 8800)] := by
  norm_num [collect_points, lookupQ, findIdxQ, low_data, high_isa_grid, high_msa_grid,
    high_tow, addPoint, List.zip, List.zipWith, List.foldl]

lemma fit0 : polyfit2 (sortByKey (collect_points 0)) =
    (-15659/227040000, 207107/113520, 36966425/2838) := by
  rw [cp0]
  norm_num [sortByKey, insertByKey, List.foldr, polyfit2, psum, det3, List.map, List.sum]

lemma fit5 : polyfit2 (sortByKey (collect_points 5)) =
    (-26158719/569752000000, 227088123/284876000, 13217341167/569752) := by
  rw [cp5]
  norm_num [sortByKey, insertByKey, List.foldr, polyfit2, psum, det3, List.map, List.sum]

lemma fit10 : polyfit2 (sortByKey (collect_points 10)) =
    (-67784347/1565057000000, 100351149/156505700, 37885196815/1565057) := by
  rw [cp10]
  norm_num [sortByKey, insertByKey, List.foldr, polyfit2, psum, det3, List.map, List.sum]

lemma fit15 : polyfit2 (sortByKey (collect_points 15)) =
    (-31378761/782528500000, 147595793/313011400, 39491968415/1565057) := by
  rw [cp15]
  norm_num [sortByKey, insertByKey, List.foldr, polyfit2, psum, det3, List.map, List.sum]

lemma fit20 : polyfit2 (sortByKey (collect_points 20)) =
    (-6205651/154567000000, 3199302633/7728350000, 97429114912/3864175) := by
  rw [cp20]
  norm_num [sortByKey, insertByKey, List.foldr, polyfit2, psum, det3, List.map, List.sum]

lemma gapm5s : get_adjust_param (-5) .slope = -2633/10000 := by
  norm_num [get_adjust_param, lookupQ, adjust_params, adjAt, paramVal]

lemma gapm5i : get_adjust_param (-5) .intercept = 4066 := by
  norm_num [get_adjust_param, lookupQ, adjust_params, adjAt, paramVal]

lemma gap0s : get_adjust_param 0 .slope = -3079/10000 := by
  norm_num [get_adjust_param, lookupQ, adjust_params, adjAt, paramVal]

lemma gap0i : get_adjust_param 0 .intercept = 5653 := by
  norm_num [get_adjust_param, lookupQ, adjust_params, adjAt, paramVal]

lemma gap5s : get_adjust_param 5 .slope = -270/10000 := by
  norm_num [get_adjust_param, lookupQ, adjust_params, adjAt, paramVal]

lemma gap5i : get_adjust_param 5 .intercept = 270 := by
  norm_num [get_adjust_param, lookupQ, adjust_params, adjAt, paramVal]

lemma gap10s : get_adjust_param 10 .slope = -40/10000 := by
  norm_num [get_adjust_param, lookupQ, adjust_params, adjAt, paramVal]

lemma gap10i : get_adjust_param 10 .intercept = 40 := by
  norm_num [get_adjust_param, lookupQ, adjust_params, adjAt, paramVal]

lemma gap15s : get_adjust_param 15 .slope = 80/10000 := by
  norm_num [get_adjust_param, lookupQ, adjust_params, adjAt, paramVal]

lemma gap15i : get_adjust_param 15 .intercept = 123 := by
  norm_num [get_adjust_param, lookupQ, adjust_params, adjAt, paramVal]

lemma gap20s : get_adjust_param 20 .slope = 494/10000 := by
  norm_num [get_adjust_param, lookupQ, adjust_params, adjAt, paramVal]

lemma gap20i : get_adjust_param 20 .intercept = -306 := by
  norm_num [get_adjust_param, lookupQ, adjust_params, adjAt, paramVal]

lemma cp0_key_lb : ∀ p ∈ collect_points 0, (16000 : ℚ) ≤ p.1 := by
  rw [cp0]
  intro p hp
  fin_cases hp <;> norm_num

lemma cp5_key_lb : ∀ p ∈ collect_points 5, (12000 : ℚ) ≤ p.1 := by
  rw [cp5]
  intro p hp
  fin_cases hp <;> norm_num

lemma cp10_key_lb : ∀ p ∈ collect_points 10, (10000 : ℚ) ≤ p.1 := by
  rw [cp10]
  intro p hp
  fin_cases hp <;> norm_num

lemma cp15_key_lb : ∀ p ∈ collect_points 15, (10000 : ℚ) ≤ p.1 := by
  rw [cp15]
  intro p hp
  fin_cases hp <;> norm_num

lemma cp20_key_lb : ∀ p ∈ collect_points 20, (8000 : ℚ) ≤ p.1 := by
  rw [cp20]
  intro p hp
  fin_cases hp <;> norm_num

lemma cp0_ne : collect_points 0 ≠ [] := by simp [cp0]

lemma cp5_ne : collect_points 5 ≠ [] := by simp [cp5]

lemma cp10_ne : collect_points 10 ≠ [] := by simp [cp10]

lemma cp15_ne : collect_points 15 ≠ [] := by simp [cp15]

lemma cp20_ne : collect_points 20 ≠ [] := by simp [cp20]

lemma rowWeight_mono_0 {e1 e2 : ℚ} (h1 : 16000 ≤ e1) (h12 : e1 ≤ e2) :
    rowWeight 0 e2 ≤ rowWeight 0 e1 := by
  rw [rowWeight, rowWeight, fit0, gap0s, gap0i]
  simp only [poly_eval]
  exact quad_total_mono (-15659/227040000) (207107/113520) (36966425/2838)
    (-3079/10000) 5653 16000 e1 e2 (by norm_num) (by norm_num) h1 h12

lemma rowWeight_mono_5 {e1 e2 : ℚ} (h1 : 12000 ≤ e1) (h12 : e1 ≤ e2) :
    rowWeight 5 e2 ≤ rowWeight 5 e1 := by
  rw [rowWeight, rowWeight, fit5, gap5s, gap5i]
  simp only [poly_eval]
  exact quad_total_mono (-26158719/569752000000) (227088123/284876000) (13217341167/569752)
    (-270/10000) 270 12000 e1 e2 (by norm_num) (by norm_num) h1 h12

lemma rowWeight_mono_10 {e1 e2 : ℚ} (h1 : 10000 ≤ e1) (h12 : e1 ≤ e2) :
    rowWeight 10 e2 ≤ rowWeight 10 e1 := by
  rw [rowWeight, rowWeight, fit10, gap10s, gap10i]
  simp only [poly_eval]
  exact quad_total_mono (-67784347/1565057000000) (100351149/156505700) (37885196815/1565057)
    (-40/10000) 40 10000 e1 e2 (by norm_num) (by norm_num) h1 h12

lemma rowWeight_mono_15 {e1 e2 : ℚ} (h1 : 10000 ≤ e1) (h12 : e1 ≤ e2) :
    rowWeight 15 e2 ≤ rowWeight 15 e1 := by
  rw [rowWeight, rowWeight, fit15, gap15s, gap15i]
  simp only [poly_eval]
  exact quad_total_mono (-31378761/782528500000) (147595793/313011400) (39491968415/1565057)
    (80/10000) 123 10000 e1 e2 (by norm_num) (by norm_num) h1 h12

lemma rowWeight_mono_20 {e1 e2 : ℚ} (h1 : 8000 ≤ e1) (h12 : e1 ≤ e2) :
    rowWeight 20 e2 ≤ rowWeight 20 e1 := by
  rw [rowWeight, rowWeight, fit20, gap20s, gap20i]
  simp only [poly_eval]
  exact quad_total_mono (-6205651/154567000000) (3199302633/7728350000) (97429114912/3864175)
    (494/10000) (-306) 8000 e1 e2 (by norm_num) (by norm_num) h1 h12

lemma rw0_14000 : rowWeight 0 14000 = 374495281/14190 := by
  rw [rowWeight, fit0, gap0s, gap0i]
  norm_num [poly_eval]

lemma rw0_14001 : rowWeight 0 14001 = 239673213469/9081600 := by
  rw [rowWeight, fit0, gap0s, gap0i]
  norm_num [poly_eval]

lemma rw0_20000 : rowWeight 0 20000 = 60791735/2838 := by
  rw [rowWeight, fit0, gap0s, gap0i]
  norm_num [poly_eval]

lemma rw10_11000 : rowWeight 10 11000 = 40715656990/1565057 := by
  rw [rowWeight, fit10, gap10s, gap10i]
  norm_num [poly_eval]

lemma rw10_19000 : rowWeight 10 19000 = 32425423806/1565057 := by
  rw [rowWeight, fit10, gap10s, gap10i]
  norm_num [poly_eval]

lemma rw20_20000 : rowWeight 20 20000 = 10000142656/552025 := by
  rw [rowWeight, fit20, gap20s, gap20i]
  norm_num [poly_eval]

lemma wraw_warm (t m : ℚ) (ht : ¬ t ≤ -5) (hne : collect_points (isa_clamp_of t) ≠ []) :
    w_obstacle_raw t m = some (rowWeight (isa_clamp_of t) (effective_msa_of m),
      if t = isa_clamp_of t then .curveFit else .curveFitClamped (isa_clamp_of t)) := by
  simp only [w_obstacle_raw, if_neg ht, if_neg hne]

lemma wraw_cold (t m : ℚ) (ht : t ≤ -5) :
    w_obstacle_raw t m = some (25000 +
      (get_adjust_param (-5) .slope * effective_msa_of m +
        get_adjust_param (-5) .intercept), .coldCap) := by
  simp only [w_obstacle_raw, if_pos ht]

lemma calculate_eq_ok {t m f : ℚ} (h1 : ¬(t < -20 ∨ 30 < t)) (h2 : ¬(m < MIN_MSA ∨ 26000 < m))
    (h3 : ¬ f < 0) {w0 : ℚ} {src : Source} (hw : w_obstacle_raw t m = some (w0, src)) :
    calculate_zntol t m f = .ok ⟨pyRound (min (max w0 4600) STRUCTURAL_MTOW),
      pyRound (min (min (max w0 4600) STRUCTURAL_MTOW + f) STRUCTURAL_MTOW),
      decide (STRUCTURAL_MTOW < min (max w0 4600) STRUCTURAL_MTOW + f),
      src, pyRound (effective_msa_of m)⟩ := by
  rw [calculate_zntol, if_neg h1, if_neg h2, if_neg h3, hw]

lemma wraw_0_15000 : w_obstacle_raw 0 15000 = some (374495281/14190, Source.curveFit) := by
  rw [wraw_warm 0 15000 (by norm_num) (by rw [hcl0]; exact cp0_ne), hcl0,
    if_pos rfl, eff_sub 15000 (by norm_num)]
  norm_num [rw0_14000]

lemma wraw_0_15001 : w_obstacle_raw 0 15001 = some (239673213469/9081600, Source.curveFit) := by
  rw [wraw_warm 0 15001 (by norm_num) (by rw [hcl0]; exact cp0_ne), hcl0,
    if_pos rfl, eff_sub 15001 (by norm_num)]
  norm_num [rw0_14001]

lemma wraw_0_21000 : w_obstacle_raw 0 21000 = some (60791735/2838, Source.curveFit) := by
  rw [wraw_warm 0 21000 (by norm_num) (by rw [hcl0]; exact cp0_ne), hcl0,
    if_pos rfl, eff_sub 21000 (by norm_num)]
  norm_num [rw0_20000]

lemma wraw_10_12000 : w_obstacle_raw 10 12000 = some (40715656990/1565057, Source.curveFit) := by
  rw [wraw_warm 10 12000 (by norm_num) (by rw [hcl10]; exact cp10_ne), hcl10,
    if_pos rfl, eff_sub 12000 (by norm_num)]
  norm_num [rw10_11000]

lemma wraw_10_20000 : w_obstacle_raw 10 20000 = some (32425423806/1565057, Source.curveFit) := by
  rw [wraw_warm 10 20000 (by norm_num) (by rw [hcl10]; exact cp10_ne), hcl10,
    if_pos rfl, eff_sub 20000 (by norm_num)]
  norm_num [rw10_19000]

lemma wraw_25_21000 :
    w_obstacle_raw 25 21000 = some (10000142656/552025, Source.curveFitClamped 20) := by
  rw [wraw_warm 25 21000 (by norm_num) (by rw [hcl25]; exact cp20_ne), hcl25,
    if_neg (by norm_num : ¬ (25 : ℚ) = 20), eff_sub 21000 (by norm_num)]
  norm_num [rw20_20000]

lemma calc_0_15000_f (f : ℚ) (hf : 0 ≤ f) :
    calculate_zntol 0 15000 f = .ok ⟨26391,
      pyRound (min (374495281/14190 + f) STRUCTURAL_MTOW),
      decide (STRUCTURAL_MTOW < 374495281/14190 + f), .curveFit, 14000⟩ := by
  rw [calculate_eq_ok (by norm_num) (by norm_num [MIN_MSA]) (by linarith) wraw_0_15000,
    clamp_of_le (by norm_num) (by norm_num [STRUCTURAL_MTOW]),
    eff_sub 15000 (by norm_num)]
  norm_num [pyRound_eval (by norm_num : ((26391 : ℤ) : ℚ) ≤ 374495281/14190)
      (by norm_num : (374495281/14190 : ℚ) < ((26391 : ℤ) : ℚ) + 1/2),
    pyRound_eval (by norm_num : ((14000 : ℤ) : ℚ) ≤ (15000 : ℚ) - 1000)
      (by norm_num : (15000 : ℚ) - 1000 < ((14000 : ℤ) : ℚ) + 1/2)]
  exact pyRound_eval (by norm_num) (by norm_num)

lemma calc_0_15001_f (f : ℚ) (hf : 0 ≤ f) :
    calculate_zntol 0 15001 f = .ok ⟨26391,
      pyRound (min (239673213469/9081600 + f) STRUCTURAL_MTOW),
      decide (STRUCTURAL_MTOW < 239673213469/9081600 + f), .curveFit, 14001⟩ := by
  rw [calculate_eq_ok (by norm_num) (by norm_num [MIN_MSA]) (by linarith) wraw_0_15001,
    clamp_of_le (by norm_num) (by norm_num [STRUCTURAL_MTOW]),
    eff_sub 15001 (by norm_num)]
  norm_num [pyRound_eval (by norm_num : ((26391 : ℤ) : ℚ) ≤ 239673213469/9081600)
      (by norm_num : (239673213469/9081600 : ℚ) < ((26391 : ℤ) : ℚ) + 1/2),
    pyRound_eval (by norm_num : ((14001 : ℤ) : ℚ) ≤ (15001 : ℚ) - 1000)
      (by norm_num : (15001 : ℚ) - 1000 < ((14001 : ℤ) : ℚ) + 1/2)]
  exact pyRound_eval (by norm_num) (by norm_num)

lemma calc_0_15000_0 :
    calculate_zntol 0 15000 0 = .ok ⟨26391, 26391, false, .curveFit, 14000⟩ := by
  rw [calc_0_15000_f 0 le_rfl]
  have hmin : min (374495281/14190 + (0 : ℚ)) STRUCTURAL_MTOW = 374495281/14190 := by
    rw [min_eq_left (by norm_num [STRUCTURAL_MTOW])]
    norm_num
  rw [hmin, pyRound_eval (by norm_num : ((26391 : ℤ) : ℚ) ≤ 374495281/14190)
      (by norm_num : (374495281/14190 : ℚ) < ((26391 : ℤ) : ℚ) + 1/2),
    decide_eq_false (by norm_num [STRUCTURAL_MTOW] :
      ¬ STRUCTURAL_MTOW < 374495281/14190 + (0 : ℚ))]

lemma calc_0_15000_5000 :
    calculate_zntol 0 15000 5000 = .ok ⟨26391, 26433, true, .curveFit, 14000⟩ := by
  rw [calc_0_15000_f 5000 (by norm_num)]
  have hmin : min (374495281/14190 + (5000 : ℚ)) STRUCTURAL_MTOW = STRUCTURAL_MTOW := by
    rw [min_eq_right (by norm_num [STRUCTURAL_MTOW])]
  rw [hmin, decide_eq_true (by norm_num [STRUCTURAL_MTOW] :
      STRUCTURAL_MTOW < 374495281/14190 + (5000 : ℚ))]
  norm_num [STRUCTURAL_MTOW,
    pyRound_eval (by norm_num : ((26433 : ℤ) : ℚ) ≤ (26433 : ℚ))
      (by norm_num : (26433 : ℚ) < ((26433 : ℤ) : ℚ) + 1/2)]

lemma calc_0_21000_2000 :
    calculate_zntol 0 21000 2000 = .ok ⟨21421, 23421, false, .curveFit, 20000⟩ := by
  rw [calculate_eq_ok (by norm_num) (by norm_num [MIN_MSA]) (by norm_num) wraw_0_21000,
    clamp_of_le (by norm_num) (by norm_num [STRUCTURAL_MTOW]),
    eff_sub 21000 (by norm_num),
    min_eq_left (by norm_num [STRUCTURAL_MTOW] :
      (60791735/2838 : ℚ) + 2000 ≤ STRUCTURAL_MTOW),
    decide_eq_false (by norm_num [STRUCTURAL_MTOW] :
      ¬ STRUCTURAL_MTOW < (60791735/2838 : ℚ) + 2000),
    show (60791735/2838 : ℚ) + 2000 = 66467735/2838 by norm_num,
    pyRound_eval_up (by norm_num : ((21420 : ℤ) : ℚ) + 1/2 < 60791735/2838)
      (by norm_num : (60791735/2838 : ℚ) < ((21420 : ℤ) : ℚ) + 1),
    pyRound_eval_up (by norm_num : ((23420 : ℤ) : ℚ) + 1/2 < 66467735/2838)
      (by norm_num : (66467735/2838 : ℚ) < ((23420 : ℤ) : ℚ) + 1),
    pyRound_eval (by norm_num : ((20000 : ℤ) : ℚ) ≤ (21000 : ℚ) - 1000)
      (by norm_num : (21000 : ℚ) - 1000 < ((20000 : ℤ) : ℚ) + 1/2)]
  norm_num

lemma calc_10_12000_0 :
    calculate_zntol 10 12000 0 = .ok ⟨26015, 26015, false, .curveFit, 11000⟩ := by
  rw [calculate_eq_ok (by norm_num) (by norm_num [MIN_MSA]) (by norm_num) wraw_10_12000,
    clamp_of_le (by norm_num) (by norm_num [STRUCTURAL_MTOW]),
    eff_sub 12000 (by norm_num),
    min_eq_left (by norm_num [STRUCTURAL_MTOW] :
      (40715656990/1565057 : ℚ) + 0 ≤ STRUCTURAL_MTOW),
    decide_eq_false (by norm_num [STRUCTURAL_MTOW] :
      ¬ STRUCTURAL_MTOW < (40715656990/1565057 : ℚ) + 0),
    show (40715656990/1565057 : ℚ) + 0 = 40715656990/1565057 by norm_num,
    pyRound_eval (by norm_num : ((26015 : ℤ) : ℚ) ≤ 40715656990/1565057)
      (by norm_num : (40715656990/1565057 : ℚ) < ((26015 : ℤ) : ℚ) + 1/2),
    pyRound_eval (by norm_num : ((11000 : ℤ) : ℚ) ≤ (12000 : ℚ) - 1000)
      (by norm_num : (12000 : ℚ) - 1000 < ((11000 : ℤ) : ℚ) + 1/2)]

lemma calc_10_20000_0 :
    calculate_zntol 10 20000 0 = .ok ⟨20718, 20718, false, .curveFit, 19000⟩ := by
  rw [calculate_eq_ok (by norm_num) (by norm_num [MIN_MSA]) (by norm_num) wraw_10_20000,
    clamp_of_le (by norm_num) (by norm_num [STRUCTURAL_MTOW]),
    eff_sub 20000 (by norm_num),
    min_eq_left (by norm_num [STRUCTURAL_MTOW] :
      (32425423806/1565057 : ℚ) + 0 ≤ STRUCTURAL_MTOW),
    decide_eq_false (by norm_num [STRUCTURAL_MTOW] :
      ¬ STRUCTURAL_MTOW < (32425423806/1565057 : ℚ) + 0),
    show (32425423806/1565057 : ℚ) + 0 = 32425423806/1565057 by norm_num,
    pyRound_eval (by norm_num : ((20718 : ℤ) : ℚ) ≤ 32425423806/1565057)
      (by norm_num : (32425423806/1565057 : ℚ) < ((20718 : ℤ) : ℚ) + 1/2),
    pyRound_eval (by norm_num : ((19000 : ℤ) : ℚ) ≤ (20000 : ℚ) - 1000)
      (by norm_num : (20000 : ℚ) - 1000 < ((19000 : ℤ) : ℚ) + 1/2)]

lemma calc_25_21000_0 :
    calculate_zntol 25 21000 0 = .ok ⟨18115, 18115, false, .curveFitClamped 20, 20000⟩ := by
  rw [calculate_eq_ok (by norm_num) (by norm_num [MIN_MSA]) (by norm_num) wraw_25_21000,
    clamp_of_le (by norm_num) (by norm_num [STRUCTURAL_MTOW]),
    eff_sub 21000 (by norm_num),
    min_eq_left (by norm_num [STRUCTURAL_MTOW] :
      (10000142656/552025 : ℚ) + 0 ≤ STRUCTURAL_MTOW),
    decide_eq_false (by norm_num [STRUCTURAL_MTOW] :
      ¬ STRUCTURAL_MTOW < (10000142656/552025 : ℚ) + 0),
    show (10000142656/552025 : ℚ) + 0 = 10000142656/552025 by norm_num,
    pyRound_eval (by norm_num : ((18115 : ℤ) : ℚ) ≤ 10000142656/552025)
      (by norm_num : (10000142656/552025 : ℚ) < ((18115 : ℤ) : ℚ) + 1/2),
    pyRound_eval (by norm_num : ((20000 : ℤ) : ℚ) ≤ (21000 : ℚ) - 1000)
      (by norm_num : (21000 : ℚ) - 1000 < ((20000 : ℤ) : ℚ) + 1/2)]

lemma hcl52 : isa_clamp_of (5/2) = 5/2 := by norm_num [isa_clamp_of, max_def, min_def]

lemma cp52 : collect_points (5/2) = [] := by
  norm_num [collect_points, lookupQ, findIdxQ, low_data, high_isa_grid]

lemma wraw_52 : w_obstacle_raw (5/2) 20000 = none := by
  norm_num [w_obstacle_raw, hcl52, cp52]

lemma calc_52 : calculate_zntol (5/2) 20000 0 = .err .noData := by
  rw [calculate_zntol, if_neg (by norm_num), if_neg (by norm_num [MIN_MSA]),
    if_neg (by norm_num), wraw_52]

lemma cp_eq_nil (t : ℚ) (hlo : 0 < t) (hhi : t < 20)
    (h5 : t ≠ 5) (h10 : t ≠ 10) (h15 : t ≠ 15) : collect_points t = [] := by
  have hlow : lookupQ low_data t = none := by
    apply lookupQ_eq_none
    intro p hp
    fin_cases hp <;>
      first
        | exact h5
        | exact h10
        | exact h15
        | (intro hc; rw [hc] at hlo hhi; norm_num at hlo hhi)
  have hhigh : findIdxQ high_isa_grid t = none := by
    apply findIdxQ_eq_none
    intro y hy
    fin_cases hy <;>
      first
        | exact Ne.symm h5
        | exact Ne.symm h10
        | exact Ne.symm h15
        | (intro hc; rw [← hc] at hlo hhi; norm_num at hlo hhi)
  simp only [collect_points, hlow, hhigh, Option.getD_none]

lemma isa_clamp_bounds (t : ℚ) : 0 ≤ isa_clamp_of t ∧ isa_clamp_of t ≤ 20 :=
  ⟨le_min (le_max_right t 0) (by norm_num), min_le_right _ _⟩

lemma cp_ne_nil_cases {c : ℚ} (h0 : 0 ≤ c) (h20 : c ≤ 20)
    (hne : collect_points c ≠ []) :
    c = 0 ∨ c = 5 ∨ c = 10 ∨ c = 15 ∨ c = 20 := by
  by_contra hcon
  push_neg at hcon
  obtain ⟨hc0, hc5, hc10, hc15, hc20⟩ := hcon
  exact hne (cp_eq_nil c (lt_of_le_of_ne h0 (Ne.symm hc0)) (lt_of_le_of_ne h20 hc20)
    hc5 hc10 hc15)

lemma region_10_12000 : inTableRegion 10 12000 := by
  intro _
  refine ⟨(10000, 26433), ?_, (26000, 11700), ?_, ?_, ?_⟩
  · rw [hcl10, cp10]
    norm_num
  · rw [hcl10, cp10]
    norm_num
  · norm_num [effective_msa_of]
  · norm_num [effective_msa_of]

lemma region_10_20000 : inTableRegion 10 20000 := by
  intro _
  refine ⟨(10000, 26433), ?_, (26000, 11700), ?_, ?_, ?_⟩
  · rw [hcl10, cp10]
    norm_num
  · rw [hcl10, cp10]
    norm_num
  · norm_num [effective_msa_of]
  · norm_num [effective_msa_of]

lemma gap_nokey (t : ℚ) (h : ∀ e ∈ adjust_params, t ≠ e.1) :
    lookupQ adjust_params t = none := lookupQ_eq_none _ _ h

lemma gap_between_0_5 (p : Param) (t : ℚ) (hl : 0 < t) (hh : t < 5) :
    get_adjust_param t p = lineThrough 0 (adjAt 0 p) 5 (adjAt 5 p) t := by
  have hnone : lookupQ adjust_params t = none := by
    apply gap_nokey
    intro e he
    fin_cases he <;> (intro hc; rw [hc] at hl hh; norm_num at hl hh)
  have hidx : searchsorted isas t = 3 := by
    simp only [isas, searchsorted]
    rw [if_neg (by linarith : ¬ t ≤ -10), if_neg (by linarith : ¬ t ≤ -5),
      if_neg (by linarith : ¬ t ≤ 0), if_pos (by linarith : t ≤ 5)]
  rw [get_adjust_param,
    if_neg (show ¬ (lookupQ adjust_params t).isSome = true by rw [hnone]; simp)]
  simp only [hidx]
  norm_num [isas, lineThrough, List.getD, List.getElem?_cons_zero, List.getElem?_cons_succ]

lemma gap_between_m10_m5 (p : Param) (t : ℚ) (hl : -10 < t) (hh : t < -5) :
    get_adjust_param t p = lineThrough (-10) (adjAt (-10) p) (-5) (adjAt (-5) p) t := by
  have hnone : lookupQ adjust_params t = none := by
    apply gap_nokey
    intro e he
    fin_cases he <;> (intro hc; rw [hc] at hl hh; norm_num at hl hh)
  have hidx : searchsorted isas t = 1 := by
    simp only [isas, searchsorted]
    rw [if_neg (by linarith : ¬ t ≤ -10), if_pos (by linarith : t ≤ -5)]
  rw [get_adjust_param,
    if_neg (show ¬ (lookupQ adjust_params t).isSome = true by rw [hnone]; simp)]
  simp only [hidx]
  norm_num [isas, lineThrough, List.getD, List.getElem?_cons_zero, List.getElem?_cons_succ]

lemma gap_between_m5_0 (p : Param) (t : ℚ) (hl : -5 < t) (hh : t < 0) :
    get_adjust_param t p = lineThrough (-5) (adjAt (-5) p) 0 (adjAt 0 p) t := by
  have hnone : lookupQ adjust_params t = none := by
    apply gap_nokey
    intro e he
    fin_cases he <;> (intro hc; rw [hc] at hl hh; norm_num at hl hh)
  have hidx : searchsorted isas t = 2 := by
    simp only [isas, searchsorted]
    rw [if_neg (by linarith : ¬ t ≤ -10), if_neg (by linarith : ¬ t ≤ -5),
      if_pos (by linarith : t ≤ 0)]
  rw [get_adjust_param,
    if_neg (show ¬ (lookupQ adjust_params t).isSome = true by rw [hnone]; simp)]
  simp only [hidx]
  norm_num [isas, lineThrough, List.getD, List.getElem?_cons_zero, List.getElem?_cons_succ]

lemma gap_between_5_10 (p : Param) (t : ℚ) (hl : 5 < t) (hh : t < 10) :
    get_adjust_param t p = lineThrough 5 (adjAt 5 p) 10 (adjAt 10 p) t := by
  have hnone : lookupQ adjust_params t = none := by
    apply gap_nokey
    intro e he
    fin_cases he <;> (intro hc; rw [hc] at hl hh; norm_num at hl hh)
  have hidx : searchsorted isas t = 4 := by
    simp only [isas, searchsorted]
    rw [if_neg (by linarith : ¬ t ≤ -10), if_neg (by linarith : ¬ t ≤ -5),
      if_neg (by linarith : ¬ t ≤ 0), if_neg (by linarith : ¬ t ≤ 5),
      if_pos (by linarith : t ≤ 10)]
  rw [get_adjust_param,
    if_neg (show ¬ (lookupQ adjust_params t).isSome = true by rw [hnone]; simp)]
  simp only [hidx]
  norm_num [isas, lineThrough, List.getD, List.getElem?_cons_zero, List.getElem?_cons_succ]

lemma gap_between_10_15 (p : Param) (t : ℚ) (hl : 10 < t) (hh : t < 15) :
    get_adjust_param t p = lineThrough 10 (adjAt 10 p) 15 (adjAt 15 p) t := by
  have hnone : lookupQ adjust_params t = none := by
    apply gap_nokey
    intro e he
    fin_cases he <;> (intro hc; rw [hc] at hl hh; norm_num at hl hh)
  have hidx : searchsorted isas t = 5 := by
    simp only [isas, searchsorted]
    rw [if_neg (by linarith : ¬ t ≤ -10), if_neg (by linarith : ¬ t ≤ -5),
      if_neg (by linarith : ¬ t ≤ 0), if_neg (by linarith : ¬ t ≤ 5),
      if_neg (by linarith : ¬ t ≤ 10), if_pos (by linarith : t ≤ 15)]
  rw [get_adjust_param,
    if_neg (show ¬ (lookupQ adjust_params t).isSome = true by rw [hnone]; simp)]
  simp only [hidx]
  norm_num [isas, lineThrough, List.getD, List.getElem?_cons_zero, List.getElem?_cons_succ]

lemma gap_between_15_20 (p : Param) (t : ℚ) (hl : 15 < t) (hh : t < 20) :
    get_adjust_param t p = lineThrough 15 (adjAt 15 p) 20 (adjAt 20 p) t := by
  have hnone : lookupQ adjust_params t = none := by
    apply gap_nokey
    intro e he
    fin_cases he <;> (intro hc; rw [hc] at hl hh; norm_num at hl hh)
  have hidx : searchsorted isas t = 6 := by
    simp only [isas, searchsorted]
    rw [if_neg (by linarith : ¬ t ≤ -10), if_neg (by linarith : ¬ t ≤ -5),
      if_neg (by linarith : ¬ t ≤ 0), if_neg (by linarith : ¬ t ≤ 5),
      if_neg (by linarith : ¬ t ≤ 10), if_neg (by linarith : ¬ t ≤ 15),
      if_pos (by linarith : t ≤ 20)]
  rw [get_adjust_param,
    if_neg (show ¬ (lookupQ adjust_params t).isSome = true by rw [hnone]; simp)]
  simp only [hidx]
  norm_num [isas, lineThrough, List.getD, List.getElem?_cons_zero, List.getElem?_cons_succ]

lemma gap_below_min (p : Param) (t : ℚ) (hl : t < -10) :
    get_adjust_param t p = lineThrough (-10) (adjAt (-10) p) (-5) (adjAt (-5) p) t := by
  have hnone : lookupQ adjust_params t = none := by
    apply gap_nokey
    intro e he
    fin_cases he <;> (intro hc; rw [hc] at hl; norm_num at hl)
  have hidx : searchsorted isas t = 0 := by
    simp only [isas, searchsorted]
    rw [if_pos (by linarith : t ≤ -10)]
  rw [get_adjust_param,
    if_neg (show ¬ (lookupQ adjust_params t).isSome = true by rw [hnone]; simp)]
  simp only [hidx]
  norm_num [isas, lineThrough, List.getD, List.getElem?_cons_zero, List.getElem?_cons_succ]
  all_goals ring

lemma gap_above_max (p : Param) (t : ℚ) (hl : 20 < t) :
    get_adjust_param t p = lineThrough 15 (adjAt 15 p) 20 (adjAt 20 p) t := by
  have hnone : lookupQ adjust_params t = none := by
    apply gap_nokey
    intro e he
    fin_cases he <;> (intro hc; rw [hc] at hl; norm_num at hl)
  have hidx : searchsorted isas t = 7 := by
    simp only [isas, searchsorted]
    rw [if_neg (by linarith : ¬ t ≤ -10), if_neg (by linarith : ¬ t ≤ -5),
      if_neg (by linarith : ¬ t ≤ 0), if_neg (by linarith : ¬ t ≤ 5),
      if_neg (by linarith : ¬ t ≤ 10), if_neg (by linarith : ¬ t ≤ 15),
      if_neg (by linarith : ¬ t ≤ 20)]
  rw [get_adjust_param,
    if_neg (show ¬ (lookupQ adjust_params t).isSome = true by rw [hnone]; simp)]
  simp only [hidx]
  norm_num [isas, lineThrough, List.getD, List.getElem?_cons_zero, List.getElem?_cons_succ]
  all_goals ring

lemma gap_at_key (p : Param) (e : ℚ × AdjParam) (he : e ∈ adjust_params) :
    get_adjust_param e.1 p = paramVal e.2 p := by
  fin_cases he <;> norm_num [get_adjust_param, lookupQ, adjust_params, adjAt]

lemma calculate_ok_elim {t m f : ℚ} {r : Ok} (h : calculate_zntol t m f = .ok r) :
    (-20 ≤ t ∧ t ≤ 30 ∧ MIN_MSA ≤ m ∧ m ≤ 26000 ∧ 0 ≤ f) ∧
    ∃ w0 src, w_obstacle_raw t m = some (w0, src) ∧
      r = ⟨pyRound (min (max w0 4600) STRUCTURAL_MTOW),
           pyRound (min (min (max w0 4600) STRUCTURAL_MTOW + f) STRUCTURAL_MTOW),
           decide (STRUCTURAL_MTOW < min (max w0 4600) STRUCTURAL_MTOW + f),
           src, pyRound (effective_msa_of m)⟩ := by
  rw [calculate_zntol] at h
  split at h
  · exact (ZRes.noConfusion h)
  · split at h
    · exact (ZRes.noConfusion h)
    · split at h
      · exact (ZRes.noConfusion h)
      · rename_i hisa hmsa hfuel
        push_neg at hisa hmsa hfuel
        split at h
        · exact (ZRes.noConfusion h)
        · rename_i w0 src heq
          cases h
          exact ⟨⟨hisa.1, hisa.2, hmsa.1, hmsa.2, hfuel⟩, w0, src, heq, rfl⟩

/-! Claim theorems. -/

/-- C1 (counterexample): the claim that an effective altitude at or below 15000
returns the structural maximum via a structural-limit path is false at the
spec's own Scenario A: temperatureDeviation 0, minimumSafeAltitude 15000 has
effective altitude 14000, at or below the threshold, yet the returned
weightAtObstacle is 26391, not the structural maximum 26433, and the source is
the curve fit. -/
theorem c1_counterexample :
    effective_msa_of 15000 ≤ 15000 ∧
    calculate_zntol 0 15000 0 = .ok ⟨26391, 26391, false, .curveFit, 14000⟩ ∧
    (26391 : ℤ) ≠ 26433 :=
  ⟨by norm_num [effective_msa_of], calc_0_15000_0, by norm_num⟩

/-- C1 (amended): the code has no structural-limit short-circuit.  An input at
or one unit above the 15000 threshold takes the same curve-fit path: at
temperatureDeviation 0 both minimumSafeAltitude 15000 and 15001 return
weightAtObstacle 26391 with source curve fit, regardless of fuelBurn, and 26391
is strictly below the structural maximum; the structural maximum can only enter
through the final clamp. -/
theorem c1_no_structural_short_circuit (f : ℚ) (hf : 0 ≤ f) :
    (∃ z c, calculate_zntol 0 15000 f = .ok ⟨26391, z, c, .curveFit, 14000⟩) ∧
    (∃ z c, calculate_zntol 0 15001 f = .ok ⟨26391, z, c, .curveFit, 14001⟩) ∧
    (26391 : ℤ) < 26433 :=
  ⟨⟨_, _, calc_0_15000_f f hf⟩, ⟨_, _, calc_0_15001_f f hf⟩, by norm_num⟩

/-- C1 (witness). -/
theorem c1_witness :
    (∃ z c, calculate_zntol 0 15000 2000 = .ok ⟨26391, z, c, .curveFit, 14000⟩) ∧
    (∃ z c, calculate_zntol 0 15001 2000 = .ok ⟨26391, z, c, .curveFit, 14001⟩) ∧
    (26391 : ℤ) < 26433 :=
  c1_no_structural_short_circuit 2000 (by norm_num)

/-- C2 (counterexample): the in-range input temperatureDeviation 5/2,
minimumSafeAltitude 20000, fuelBurn 0 does not produce an estimate: the
function returns the no-data error, because 5/2 matches no table row and no
nearest-temperature fallback exists. -/
theorem c2_counterexample :
    (-20 : ℚ) ≤ 5/2 ∧ (5/2 : ℚ) ≤ 30 ∧ (8000 : ℚ) ≤ 20000 ∧ (20000 : ℚ) ≤ 26000 ∧
    (0 : ℚ) ≤ 0 ∧ calculate_zntol (5/2) 20000 0 = .err .noData :=
  ⟨by norm_num, by norm_num, by norm_num, by norm_num, le_rfl, calc_52⟩

/-- C2 (amended): an in-range input returns a successful estimate exactly when
its temperature resolves to an existing table row: the cold cap (t at most 0
clamps to the 0 row or takes the cold path), one of the sampled rows 5, 10, 15,
or a temperature at least 20 (clamped to the 20 row).  Temperatures strictly
between rows, such as 5/2, yield the no-data error: there is no
nearest-neighbor temperature fallback. -/
theorem c2_no_data_between_rows (t m f : ℚ) (ht1 : -20 ≤ t) (ht2 : t ≤ 30)
    (hm1 : 8000 ≤ m) (hm2 : m ≤ 26000) (hf : 0 ≤ f) :
    (∃ r, calculate_zntol t m f = .ok r) ↔
      (t ≤ 0 ∨ t = 5 ∨ t = 10 ∨ t = 15 ∨ 20 ≤ t) := by
  have hv1 : ¬ (t < -20 ∨ 30 < t) := by
    push_neg
    exact ⟨ht1, ht2⟩
  have hv2 : ¬ (m < MIN_MSA ∨ 26000 < m) := by
    push_neg
    exact ⟨hm1, hm2⟩
  have hv3 : ¬ f < 0 := not_lt.2 hf
  constructor
  · rintro ⟨r, hr⟩
    by_contra hcon
    push_neg at hcon
    obtain ⟨hc0, hc5, hc10, hc15, hc20⟩ := hcon
    obtain ⟨_, w0, src, hw, _⟩ := calculate_ok_elim hr
    have hclt : isa_clamp_of t = t := by
      rw [isa_clamp_of, max_eq_left (le_of_lt hc0), min_eq_left (le_of_lt hc20)]
    have hnil : collect_points (isa_clamp_of t) = [] := by
      rw [hclt]
      exact cp_eq_nil t hc0 hc20 hc5 hc10 hc15
    simp only [w_obstacle_raw, if_neg (show ¬ t ≤ -5 by linarith), if_pos hnil] at hw
    exact Option.noConfusion hw
  · intro hgood
    have mk : ∀ w0 : ℚ, ∀ src : Source, w_obstacle_raw t m = some (w0, src) →
        ∃ r, calculate_zntol t m f = .ok r :=
      fun w0 src hw => ⟨_, calculate_eq_ok hv1 hv2 hv3 hw⟩
    rcases hgood with hle0 | h5 | h10 | h15 | hge20
    · by_cases hcold : t ≤ -5
      · exact mk _ _ (wraw_cold t m hcold)
      · have hclt : isa_clamp_of t = 0 := by
          rw [isa_clamp_of, max_eq_right hle0, min_eq_left (by norm_num)]
        exact mk _ _ (wraw_warm t m hcold (by rw [hclt]; exact cp0_ne))
    · subst h5
      exact mk _ _ (wraw_warm 5 m (by norm_num) (by rw [hcl5]; exact cp5_ne))
    · subst h10
      exact mk _ _ (wraw_warm 10 m (by norm_num) (by rw [hcl10]; exact cp10_ne))
    · subst h15
      exact mk _ _ (wraw_warm 15 m (by norm_num) (by rw [hcl15]; exact cp15_ne))
    · have hclt : isa_clamp_of t = 20 := by
        rw [isa_clamp_of, max_eq_left (by linarith), min_eq_right hge20]
      exact mk _ _ (wraw_warm t m (by intro hcon; linarith)
        (by rw [hclt]; exact cp20_ne))

/-- C2 (witness). -/
theorem c2_witness :
    (∃ r, calculate_zntol 10 20000 0 = .ok r) ↔
      ((10 : ℚ) ≤ 0 ∨ (10 : ℚ) = 5 ∨ (10 : ℚ) = 10 ∨ (10 : ℚ) = 15 ∨ (20 : ℚ) ≤ 10) :=
  c2_no_data_between_rows 10 20000 0 (by norm_num) (by norm_num) (by norm_num)
    (by norm_num) (by norm_num)

/-- C3: every successful result has a weightAtObstacle between the minimum
supported weight 4600 and the structural maximum 26433, and a zntol at most
the structural maximum, whatever path produced the weight. -/
theorem c3_clamping_bounds (t m f : ℚ) (r : Ok) (h : calculate_zntol t m f = .ok r) :
    4600 ≤ r.w_obstacle_max ∧ r.w_obstacle_max ≤ 26433 ∧ r.zntol ≤ 26433 := by
  obtain ⟨_, w0, src, hw, hr⟩ := calculate_ok_elim h
  subst hr
  have hM : STRUCTURAL_MTOW = ((26433 : ℤ) : ℚ) := by norm_num [STRUCTURAL_MTOW]
  refine ⟨le_pyRound ?_, pyRound_le ?_, pyRound_le ?_⟩
  · have h46 : ((4600 : ℤ) : ℚ) = 4600 := by norm_num
    rw [h46]
    exact le_min (le_max_right _ _) (by norm_num [STRUCTURAL_MTOW])
  · rw [← hM]
    exact min_le_right _ _
  · rw [← hM]
    exact min_le_right _ _

/-- C3 (witness). -/
theorem c3_witness :
    4600 ≤ (Ok.mk 21421 23421 false .curveFit 20000).w_obstacle_max ∧
    (Ok.mk 21421 23421 false .curveFit 20000).w_obstacle_max ≤ 26433 ∧
    (Ok.mk 21421 23421 false .curveFit 20000).zntol ≤ 26433 :=
  c3_clamping_bounds 0 21000 2000 _ calc_0_21000_2000

/-- C4: every successful result is assembled from the clamped obstacle weight w
by zntol = round (min (w + fuelBurn) structuralMax) and
wasCapped iff structuralMax < w + fuelBurn, while the returned weightAtObstacle
is round w itself, computed without the fuel term: the assembly step does not
re-clamp the weight. -/
theorem c4_zntol_assembly (t m f : ℚ) (r : Ok) (h : calculate_zntol t m f = .ok r) :
    ∃ w, w_obstacle_clamped t m = some w ∧
      r.w_obstacle_max = pyRound w ∧
      r.zntol = pyRound (min (w + f) STRUCTURAL_MTOW) ∧
      (r.capped = true ↔ STRUCTURAL_MTOW < w + f) := by
  obtain ⟨_, w0, src, hw, hr⟩ := calculate_ok_elim h
  subst hr
  refine ⟨min (max w0 4600) STRUCTURAL_MTOW, ?_, rfl, rfl, ?_⟩
  · rw [w_obstacle_clamped, hw]
    rfl
  · show decide (STRUCTURAL_MTOW < min (max w0 4600) STRUCTURAL_MTOW + f) = true ↔ _
    exact decide_eq_true_iff

/-- C4 (witness). -/
theorem c4_witness :
    ∃ w, w_obstacle_clamped 0 15000 = some w ∧
      (Ok.mk 26391 26433 true .curveFit 14000).w_obstacle_max = pyRound w ∧
      (Ok.mk 26391 26433 true .curveFit 14000).zntol =
        pyRound (min (w + 5000) STRUCTURAL_MTOW) ∧
      ((Ok.mk 26391 26433 true .curveFit 14000).capped = true ↔
        STRUCTURAL_MTOW < w + 5000) :=
  c4_zntol_assembly 0 15000 5000 _ calc_0_15000_5000

/-- C5: out-of-range inputs are rejected before any lookup, with a structured
error and no weight fields: a temperature outside the range gives the
temperature range error, then an altitude outside the range gives the altitude
range error, then a negative fuel burn gives the fuel error.  The function is
total, so it never raises. -/
theorem c5_validation_errors (t m f : ℚ) :
    ((t < -20 ∨ 30 < t) → calculate_zntol t m f = .err .isaRange) ∧
    (-20 ≤ t → t ≤ 30 → (m < MIN_MSA ∨ 26000 < m) →
      calculate_zntol t m f = .err .msaRange) ∧
    (-20 ≤ t → t ≤ 30 → MIN_MSA ≤ m → m ≤ 26000 → f < 0 →
      calculate_zntol t m f = .err .negFuel) := by
  refine ⟨fun h => ?_, fun h1 h2 h3 => ?_, fun h1 h2 h3 h4 h5 => ?_⟩
  · rw [calculate_zntol, if_pos h]
  · rw [calculate_zntol, if_neg (by push_neg; exact ⟨h1, h2⟩), if_pos h3]
  · rw [calculate_zntol, if_neg (by push_neg; exact ⟨h1, h2⟩),
      if_neg (by push_neg; exact ⟨h3, h4⟩), if_pos h5]

/-- C5 (witness). -/
theorem c5_witness :
    calculate_zntol 35 15000 2000 = .err .isaRange ∧
    calculate_zntol 0 27000 0 = .err .msaRange ∧
    calculate_zntol 0 15000 (-1) = .err .negFuel :=
  ⟨(c5_validation_errors 35 15000 2000).1 (by norm_num),
   (c5_validation_errors 0 27000 0).2.1 (by norm_num) (by norm_num)
     (by right; norm_num),
   (c5_validation_errors 0 15000 (-1)).2.2 (by norm_num) (by norm_num)
     (by norm_num [MIN_MSA]) (by norm_num) (by norm_num)⟩

/-- C6 (counterexample): temperatureDeviation 25 lies inside the sampled
temperature range (it is even a sampled row of the high-altitude table), yet
the query is clamped: the clamp maps 25 to 20 and the result's source records
the clamped ISA 20 row. -/
theorem c6_counterexample :
    (25 : ℚ) ∈ high_isa_grid ∧ (-20 : ℚ) ≤ 25 ∧ (25 : ℚ) ≤ 30 ∧
    isa_clamp_of 25 ≠ 25 ∧
    calculate_zntol 25 21000 0 = .ok ⟨18115, 18115, false, .curveFitClamped 20, 20000⟩ := by
  refine ⟨by norm_num [high_isa_grid], by norm_num, by norm_num, ?_, calc_25_21000_0⟩
  rw [hcl25]
  norm_num

/-- C6 (amended): the warm-path temperature is clamped to the curve-data range
0 to 20, not to the sampled temperature range: a temperature in 0..20 is used
unclamped (plain curve-fit source), a temperature above 20 is clamped to 20,
and a warm temperature below 0 is clamped to 0, each recorded in the source. -/
theorem c6_clamp_to_curve_range (t m f : ℚ) (r : Ok)
    (h : calculate_zntol t m f = .ok r) :
    (0 ≤ t → t ≤ 20 → isa_clamp_of t = t ∧ r.source = .curveFit) ∧
    (20 < t → isa_clamp_of t = 20 ∧ r.source = .curveFitClamped 20) ∧
    (-5 < t → t < 0 → isa_clamp_of t = 0 ∧ r.source = .curveFitClamped 0) := by
  obtain ⟨_, w0, src, hw, hr⟩ := calculate_ok_elim h
  subst hr
  refine ⟨fun h0 h20 => ?_, fun h20 => ?_, fun hm5 h0 => ?_⟩
  · have hclt : isa_clamp_of t = t := by
      rw [isa_clamp_of, max_eq_left h0, min_eq_left h20]
    refine ⟨hclt, ?_⟩
    by_cases hne : collect_points (isa_clamp_of t) = []
    · simp only [w_obstacle_raw, if_neg (show ¬ t ≤ -5 by linarith), if_pos hne] at hw
      exact Option.noConfusion hw
    · rw [wraw_warm t m (show ¬ t ≤ -5 by linarith) hne, hclt, if_pos rfl] at hw
      simp only [Option.some.injEq, Prod.mk.injEq] at hw
      show src = Source.curveFit
      exact hw.2.symm
  · have hclt : isa_clamp_of t = 20 := by
      rw [isa_clamp_of, max_eq_left (by linarith), min_eq_right (le_of_lt h20)]
    refine ⟨hclt, ?_⟩
    have hne : collect_points (isa_clamp_of t) ≠ [] := by
      rw [hclt]
      exact cp20_ne
    rw [wraw_warm t m (show ¬ t ≤ -5 by linarith) hne, hclt,
      if_neg (ne_of_gt h20)] at hw
    simp only [Option.some.injEq, Prod.mk.injEq] at hw
    show src = Source.curveFitClamped 20
    exact hw.2.symm
  · have hclt : isa_clamp_of t = 0 := by
      rw [isa_clamp_of, max_eq_right (le_of_lt h0), min_eq_left (by norm_num)]
    refine ⟨hclt, ?_⟩
    have hne : collect_points (isa_clamp_of t) ≠ [] := by
      rw [hclt]
      exact cp0_ne
    rw [wraw_warm t m (show ¬ t ≤ -5 by linarith) hne, hclt,
      if_neg (ne_of_lt h0)] at hw
    simp only [Option.some.injEq, Prod.mk.injEq] at hw
    show src = Source.curveFitClamped 0
    exact hw.2.symm

/-- C6 (witness). -/
theorem c6_witness :
    isa_clamp_of 25 = 20 ∧
    (Ok.mk 18115 18115 false (.curveFitClamped 20) 20000).source = .curveFitClamped 20 :=
  (c6_clamp_to_curve_range 25 21000 0 _ calc_25_21000_0).2.1 (by norm_num)

/-- C7: for a fixed temperature deviation and two valid altitudes in the
sampled altitude span of the row the query resolves to, the returned
weightAtObstacle at the higher altitude is at most the one at the lower
altitude. -/
theorem c7_weight_monotone (t a1 a2 f : ℚ) (r1 r2 : Ok) (h12 : a1 < a2)
    (hreg1 : inTableRegion t a1) (_hreg2 : inTableRegion t a2)
    (h1 : calculate_zntol t a1 f = .ok r1) (h2 : calculate_zntol t a2 f = .ok r2) :
    r2.w_obstacle_max ≤ r1.w_obstacle_max := by
  obtain ⟨⟨ht1, ht2, hm1a, hm2a, hf⟩, w1, s1, hw1, hr1⟩ := calculate_ok_elim h1
  obtain ⟨⟨_, _, hm1b, hm2b, _⟩, w2, s2, hw2, hr2⟩ := calculate_ok_elim h2
  subst hr1
  subst hr2
  show pyRound (min (max w2 4600) STRUCTURAL_MTOW) ≤
    pyRound (min (max w1 4600) STRUCTURAL_MTOW)
  apply pyRound_mono
  apply clamp_mono
  have ha1 : (6000 : ℚ) < a1 := by
    have h8 : (8000 : ℚ) ≤ a1 := hm1a
    linarith
  have ha2 : (6000 : ℚ) < a2 := by
    have h8 : (8000 : ℚ) ≤ a2 := hm1b
    linarith
  have he1 : effective_msa_of a1 = a1 - 1000 := eff_sub a1 ha1
  have he2 : effective_msa_of a2 = a2 - 1000 := eff_sub a2 ha2
  have he12 : effective_msa_of a1 ≤ effective_msa_of a2 := by
    rw [he1, he2]
    linarith
  by_cases hcold : t ≤ -5
  · rw [wraw_cold t a1 hcold] at hw1
    rw [wraw_cold t a2 hcold] at hw2
    simp only [Option.some.injEq, Prod.mk.injEq] at hw1 hw2
    rw [← hw1.1, ← hw2.1, gapm5s, gapm5i, he1, he2]
    linarith
  · have hm5 : (-5 : ℚ) < t := not_le.1 hcold
    obtain ⟨hc0, hc20⟩ := isa_clamp_bounds t
    by_cases hne : collect_points (isa_clamp_of t) = []
    · simp only [w_obstacle_raw, if_neg hcold, if_pos hne] at hw1
      exact Option.noConfusion hw1
    · rw [wraw_warm t a1 hcold hne] at hw1
      rw [wraw_warm t a2 hcold hne] at hw2
      simp only [Option.some.injEq, Prod.mk.injEq] at hw1 hw2
      rw [← hw1.1, ← hw2.1]
      obtain ⟨p1, hp1, q1, hq1, hple, _⟩ := hreg1 hm5
      rcases cp_ne_nil_cases hc0 hc20 hne with hc | hc | hc | hc | hc
      · rw [hc] at hp1 ⊢
        exact rowWeight_mono_0 (le_trans (cp0_key_lb p1 hp1) hple) he12
      · rw [hc] at hp1 ⊢
        exact rowWeight_mono_5 (le_trans (cp5_key_lb p1 hp1) hple) he12
      · rw [hc] at hp1 ⊢
        exact rowWeight_mono_10 (le_trans (cp10_key_lb p1 hp1) hple) he12
      · rw [hc] at hp1 ⊢
        exact rowWeight_mono_15 (le_trans (cp15_key_lb p1 hp1) hple) he12
      · rw [hc] at hp1 ⊢
        exact rowWeight_mono_20 (le_trans (cp20_key_lb p1 hp1) hple) he12

/-- C7 (witness). -/
theorem c7_witness :
    (Ok.mk 20718 20718 false .curveFit 19000).w_obstacle_max ≤
      (Ok.mk 26015 26015 false .curveFit 11000).w_obstacle_max :=
  c7_weight_monotone 10 12000 20000 0 _ _ (by norm_num) region_10_12000
    region_10_20000 calc_10_12000_0 calc_10_20000_0

/-- C8: for every successful result, the effective altitude used for lookup is
the entered minimum safe altitude minus the 1000 clearance offset when that
altitude exceeds 6000, and the altitude unchanged otherwise. -/
theorem c8_effective_altitude (t m f : ℚ) (r : Ok)
    (h : calculate_zntol t m f = .ok r) :
    (6000 < m → r.effective_msa = pyRound (m - 1000)) ∧
    (m ≤ 6000 → r.effective_msa = pyRound m) := by
  obtain ⟨_, w0, src, hw, hr⟩ := calculate_ok_elim h
  subst hr
  constructor
  · intro hm
    show pyRound (effective_msa_of m) = _
    rw [eff_sub m hm]
  · intro hm
    show pyRound (effective_msa_of m) = _
    rw [effective_msa_of, if_neg (not_lt.2 hm)]

/-- C8 (witness): minimumSafeAltitude 21000 yields effective altitude 20000. -/
theorem c8_witness :
    6000 < (21000 : ℚ) ∧
    (Ok.mk 21421 23421 false .curveFit 20000).effective_msa =
      pyRound ((21000 : ℚ) - 1000) :=
  ⟨by norm_num,
   (c8_effective_altitude 0 21000 2000 _ calc_0_21000_2000).1 (by norm_num)⟩

/-- C9: get_adjust_param returns the stored parameter exactly at a defined
temperature, the linear interpolation through the two bracketing (hence
nearest) defined points strictly between two consecutive defined temperatures,
and the linear extrapolation through the two nearest defined points below the
lowest and above the highest defined temperature. -/
theorem c9_correction_curve (p : Param) (t : ℚ) :
    (∀ e ∈ adjust_params, t = e.1 → get_adjust_param t p = paramVal e.2 p) ∧
    (∀ pr ∈ isaPairs, pr.1 < t → t < pr.2 →
      get_adjust_param t p = lineThrough pr.1 (adjAt pr.1 p) pr.2 (adjAt pr.2 p) t) ∧
    (t < -10 → get_adjust_param t p =
      lineThrough (-10) (adjAt (-10) p) (-5) (adjAt (-5) p) t) ∧
    (20 < t → get_adjust_param t p =
      lineThrough 15 (adjAt 15 p) 20 (adjAt 20 p) t) := by
  refine ⟨fun e he heq => ?_, fun pr hpr => ?_, gap_below_min p t, gap_above_max p t⟩
  · subst heq
    exact gap_at_key p e he
  · fin_cases hpr
    · exact gap_between_m10_m5 p t
    · exact gap_between_m5_0 p t
    · exact gap_between_0_5 p t
    · exact gap_between_5_10 p t
    · exact gap_between_10_15 p t
    · exact gap_between_15_20 p t

/-- C9 (witness). -/
theorem c9_witness :
    get_adjust_param (5/2) .slope =
      lineThrough 0 (adjAt 0 .slope) 5 (adjAt 5 .slope) (5/2) :=
  (c9_correction_curve .slope (5/2)).2.1 (0, 5) (by norm_num [isaPairs])
    (by norm_num) (by norm_num)

/-- C10: in the cold regime, the result does not depend on the exact
temperature deviation: any two valid temperatures at most -5 give identical
results for the same altitude and fuel burn, because a fixed 25000 base and
the ISA -5 correction parameters are used for all cold cases. -/
theorem c10_cold_regime_independence (t1 t2 m f : ℚ) (h1a : -20 ≤ t1)
    (h1b : t1 ≤ -5) (h2a : -20 ≤ t2) (h2b : t2 ≤ -5) :
    calculate_zntol t1 m f = calculate_zntol t2 m f := by
  rw [calculate_zntol, calculate_zntol,
    if_neg (show ¬ (t1 < -20 ∨ 30 < t1) by push_neg; exact ⟨h1a, by linarith⟩),
    if_neg (show ¬ (t2 < -20 ∨ 30 < t2) by push_neg; exact ⟨h2a, by linarith⟩),
    wraw_cold t1 m h1b, wraw_cold t2 m h2b]

/-- C10 (witness). -/
theorem c10_witness :
    calculate_zntol (-10) 15000 500 = calculate_zntol (-20) 15000 500 :=
  c10_cold_regime_independence (-10) (-20) 15000 500 (by norm_num) (by norm_num)
    (by norm_num) (by norm_num)

end EMB120
